import Mathlib

set_option linter.unusedVariables false

/-!
Shallow embedding of the raster windowing and stretch engine of
gdalcacaview (src/gdalcacaview/gdalcacaview.c), with theorems checking the
natural-language specification of the program against the code.

Modelling conventions: C doubles and floats are modelled as exact
rationals; C casts from double to int and C integer division are modelled
by the explicit truncation operators below; C byte stores into the pixel
buffer are modelled modulo 256.  Values the C program reads from memory it
never initialised (an uninitialised malloc block, the heap word one past
the histogram allocation) are modelled as explicit parameters.
-/

/-- Truncation of a rational toward zero: the semantics of a C cast from a
floating-point value to int. -/
def ctrunc (q : ℚ) : ℤ := if 0 ≤ q then ⌊q⌋ else -⌊-q⌋

/-- The C round function: round half away from zero. -/
def cround (q : ℚ) : ℤ := if 0 ≤ q then ⌊q + 1/2⌋ else -⌊-q + 1/2⌋

/-- C int division truncates toward zero. -/
def cdiv (a b : ℤ) : ℤ := Int.tdiv a b

/-- Storing an int into a char cell of the pixel buffer keeps the value
modulo 256. -/
def toByte (z : ℤ) : ℤ := z % 256

/-- The VIEWER_COMP_LT / VIEWER_COMP_GT / VIEWER_COMP_EQ constants. -/
inductive ViewerComp
  | lt
  | gt
  | eq
  deriving DecidableEq

/-- The VIEWER_MODE_* display-mode constants. -/
inductive ViewerMode
  | colortable
  | greyscale
  | rgb
  | pseudocolor
  deriving DecidableEq

/-- The VIEWER_STRETCHMODE_* constants; nostretch is
VIEWER_STRETCHMODE_NONE. -/
inductive ViewerStretchMode
  | nostretch
  | linear
  | stddev
  | hist
  deriving DecidableEq

/-- A raster-attribute-table column usage (the GFU_* tags the code tests). -/
inductive RatUsage
  | red
  | green
  | blue
  | alpha
  | pixelcount
  | generic
  deriving DecidableEq

/-- One column of a raster attribute table: its usage tag and its values
read row by row. -/
structure RatColumn where
  usage : RatUsage
  values : List ℤ
  deriving DecidableEq

/-- The per-band introspection the matcher consumes: the LAYER_TYPE
metadata item (absent when the ite m is not set) and the default raster
attribute table (absent when GDALGetDefaultRAT returns null). -/
structure BandInfo where
  layerType : Option String
  rat : Option (List RatColumn)
  deriving DecidableEq

/-- A dataset as the matcher sees it: its bands in order. -/
structure Dataset where
  bands : List BandInfo
  deriving DecidableEq

/-- GDALGetRasterCount. -/
def rasterCount (ds : Dataset) : ℤ := ds.bands.length

/-- GDALGetRasterBand with 1-based index i.  For i below 1 the C call
returns null and the subsequent metadata call is undefined; the model
clamps to the first band, and theorems that touch this path assume a
well-formed index. -/
def getBand (ds : Dataset) (i : ℤ) : Option BandInfo := ds.bands.get? (i - 1).toNat

/-- The struct stretch of the source: rule part (comp, value, ctband) and
stretch part (mode, stretchmode, stretchparam, bands). -/
structure Stretch where
  comp : ViewerComp
  value : ℤ
  ctband : ℤ
  mode : ViewerMode
  stretchmode : ViewerStretchMode
  stretchparam : ℚ × ℚ
  bands : ℤ × ℤ × ℤ
  deriving DecidableEq

/-- The count comparator of get_stretch_for_gdal (lines 1304-1309). -/
def compMatches (c : ViewerComp) (cnt v : ℤ) : Bool :=
  match c with
  | .lt => decide (cnt < v)
  | .gt => decide (cnt > v)
  | .eq => cnt == v

/-- Whether a usage column is present in a RAT (the flag scan of lines
1330-1341). -/
def hasUsage (cols : List RatColumn) (u : RatUsage) : Bool :=
  cols.any (fun c => c.usage == u)

/-- The per-rule match computation of get_stretch_for_gdal (lines
1302-1345): evaluate the count comparator into match; then, only when it
holds, a color-table band is given (ctband not -1) and that band number
does not exceed the band count, look the band up; when its LAYER_TYPE
equals thematic, replace match with the presence of all four of the Red,
Green, Blue and Alpha usage columns of its default RAT (absent RAT leaves
all four flags clear); in every other case match keeps the comparator
result. -/
def ruleMatchCode (ds : Dataset) (r : Stretch) : Bool :=
  let m := compMatches r.comp (rasterCount ds) r.value
  if m && (r.ctband != -1) && decide (r.ctband ≤ rasterCount ds) then
    match getBand ds r.ctband with
    | Option.none => m
    | Option.some b =>
      if b.layerType = Option.some "thematic" then
        match b.rat with
        | Option.none => false
        | Option.some cols =>
            hasUsage cols .red && hasUsage cols .green &&
            hasUsage cols .blue && hasUsage cols .alpha
      else m
  else m

/-- get_stretch_for_gdal (lines 1290-1352): walk the rules in order and
return the first whose match flag ends up set, or none when the list is
exhausted.  (The defensive invalid-comparator branch of the C loop is
unrepresentable for the ViewerComp type.) -/
def get_stretch_for_gdal (stretchList : List Stretch) (ds : Dataset) : Option Stretch :=
  match stretchList with
  | [] => Option.none
  | r :: rest =>
      if ruleMatchCode ds r then Option.some r else get_stretch_for_gdal rest ds

/-- Whether the ctband-th band carries the LAYER_TYPE value thematic. -/
def bandIsThematic (ds : Dataset) (i : ℤ) : Bool :=
  decide ((getBand ds i).bind BandInfo.layerType = Option.some "thematic")

/-- Whether the i-th band's default RAT exposes all four of the Red, Green,
Blue and Alpha usage columns. -/
def bandHasRGBA (ds : Dataset) (i : ℤ) : Bool :=
  match (getBand ds i).bind BandInfo.rat with
  | Option.none => false
  | Option.some cols =>
      hasUsage cols .red && hasUsage cols .green &&
      hasUsage cols .blue && hasUsage cols .alpha

/-- Full match exactly as the specification sentence words it: the count
comparator holds AND, whenever a color-table band is specified at all, that
band is thematic and its RAT exposes all four usage columns. -/
def specFullMatch (ds : Dataset) (r : Stretch) : Bool :=
  compMatches r.comp (rasterCount ds) r.value &&
    ((r.ctband == -1) || (bandIsThematic ds r.ctband && bandHasRGBA ds r.ctband))

/-- Full match as the amended claim words it: the RGBA-column requirement
is enforced only when the color-table band is specified, lies within the
band count, and is confirmed thematic; otherwise the count comparator
alone decides. -/
def amendedFullMatch (ds : Dataset) (r : Stretch) : Bool :=
  compMatches r.comp (rasterCount ds) r.value &&
    (!((r.ctband != -1) && decide (r.ctband ≤ rasterCount ds) && bandIsThematic ds r.ctband) ||
      bandHasRGBA ds r.ctband)

/-- Per-sample linear rescale shared by the linear stretch (lines
2266-2288) and the histogram rescale (lines 2246-2263), which are textually
identical loops up to the bounds used.  Note the code multiplies the
centred value by dStep = (max-min)/255 instead of dividing by it. -/
def linearScaleVal (dMin dMax v : ℚ) : ℚ :=
  if v ≤ dMin then 0
  else if dMax ≤ v then 255
  else
    let dStep := (dMax - dMin) / 255
    let dVal := (v - dMin) * dStep
    if dVal < 0 then 0 else if 255 < dVal then 255 else dVal

/-- Per-sample standard-deviation stretch (lines 2169-2185): a sample at or
below the minimum, or exactly zero, maps to 0; at or above the maximum maps
to 255; otherwise the stddev formula is applied and clamped. -/
def stddevStretchVal (dMin dMax mean stddev param v : ℚ) : ℚ :=
  if v ≤ dMin ∨ v = 0 then 0
  else if dMax ≤ v then 255
  else
    let dVal := ((v - mean + stddev * param) * 255) / (stddev * 2 * param)
    if dVal < 0 then 0 else if 255 < dVal then 255 else dVal

/-- Lower-clip scan of the histogram stretch (lines 2222-2231): bins are
visited in order with index n counting up from 0; at the first bin where
the cumulative count exceeds the lower clip count the bound is derived
with the C integer division n / nbins. -/
def histLowerScan (dMin dMax lower : ℚ) (nbins : ℤ) : List ℤ → ℤ → ℚ → ℚ
  | [], _, _ => dMin
  | b :: rest, n, acc =>
      let acc2 := acc + (b : ℚ)
      if lower < acc2 then dMin + (dMax - dMin) * ((cdiv n nbins : ℤ) : ℚ)
      else histLowerScan dMin dMax lower nbins rest (n + 1) acc2

/-- Upper-clip scan of the histogram stretch (lines 2233-2242): positions
are visited from n = nbins downward (the first visited cell lies one past
the histogram allocation), and at the first position where the cumulative
count exceeds the upper clip count the bound is derived with the C integer
division (nbins - n - 1) / nbins. -/
def histUpperScan (dMax upper : ℚ) (nbins : ℤ) : List ℤ → ℤ → ℚ → ℚ
  | [], _, _ => dMax
  | b :: rest, n, acc =>
      let acc2 := acc + (b : ℚ)
      if upper < acc2 then dMax + ((cdiv (nbins - n - 1) nbins : ℤ) : ℚ)
      else histUpperScan dMax upper nbins rest (n - 1) acc2

/-- Derivation of the histogram stretch bounds (lines 2213-2242).  garbage
is the heap word the top-down scan reads at pHisto[nbins], one element past
the allocated histogram. -/
def histStretchBounds (dMin dMax : ℚ) (histo : List ℤ) (garbage : ℤ) (p0 p1 : ℚ) : ℚ × ℚ :=
  let nbins : ℤ := histo.length
  let total : ℚ := ((histo.sum : ℤ) : ℚ)
  (histLowerScan dMin dMax (total * p0) nbins histo 0 0,
   histUpperScan dMax (total * p1) nbins (garbage :: histo.reverse) nbins 0)

/-- The band metadata do_stretch and the single-band reader consume: the
string-keyed STATISTICS_* items parsed as decimals (absent when the item
is not set) and the band's default raster attribute table. -/
structure BandMeta where
  statsMin : Option ℚ
  statsMax : Option ℚ
  statsMean : Option ℚ
  statsStdDev : Option ℚ
  rat : Option (List RatColumn)
  deriving DecidableEq

/-- The histogram column do_stretch uses: the column scan of lines
2198-2205 re-reads on every GFU_PixelCount column, so the last such column
wins. -/
def findHistoColumn (cols : List RatColumn) : Option (List ℤ) :=
  (cols.reverse.find? (fun c => c.usage == RatUsage.pixelcount)).map RatColumn.values

/-- do_stretch (lines 2134-2296), applied to the scratch buffer read for
one band.  The STATISTICS_MINIMUM / STATISTICS_MAXIMUM items are required
up front for every mode; the stddev mode additionally needs mean and
standard deviation, and the histogram mode needs a RAT with a pixel-count
column.  histGarbage is the out-of-bounds heap word of the histogram
scan.  none models the -1 error return. -/
def do_stretch (band : BandMeta) (stretch : Stretch) (histGarbage : ℤ) (buf : List ℚ) :
    Option (List ℚ) :=
  match band.statsMin, band.statsMax with
  | Option.some dMin, Option.some dMax =>
    match stretch.stretchmode with
    | .stddev =>
      match band.statsStdDev, band.statsMean with
      | Option.some sd, Option.some mean =>
          Option.some (buf.map (stddevStretchVal dMin dMax mean sd stretch.stretchparam.1))
      | _, _ => Option.none
    | .hist =>
      match band.rat with
      | Option.none => Option.none
      | Option.some cols =>
        match findHistoColumn cols with
        | Option.none => Option.none
        | Option.some histo =>
            Option.some (buf.map (linearScaleVal
              (histStretchBounds dMin dMax histo histGarbage
                stretch.stretchparam.1 stretch.stretchparam.2).1
              (histStretchBounds dMin dMax histo histGarbage
                stretch.stretchparam.1 stretch.stretchparam.2).2))
    | .linear => Option.some (buf.map (linearScaleVal dMin dMax))
    | .nostretch => Option.some buf
  | _, _ => Option.none

/-- A geotransform: the six affine coefficients. -/
structure GeoTransform where
  c0 : ℚ
  c1 : ℚ
  c2 : ℚ
  c3 : ℚ
  c4 : ℚ
  c5 : ℚ
  deriving DecidableEq

/-- GDALApplyGeoTransform. -/
def applyGeoTransform (t : GeoTransform) (x y : ℚ) : ℚ × ℚ :=
  (t.c0 + x * t.c1 + y * t.c2, t.c3 + x * t.c4 + y * t.c5)

/-- GDALInvGeoTransform of the raster-access collaborator, modelled
exactly over the rationals: fails precisely when the determinant is
zero. -/
def invGeoTransform (t : GeoTransform) : Option GeoTransform :=
  let det := t.c1 * t.c5 - t.c2 * t.c4
  if det = 0 then Option.none
  else Option.some
    { c0 := (t.c2 * t.c3 - t.c0 * t.c5) / det
      c1 := t.c5 / det
      c2 := -t.c2 / det
      c3 := (-t.c1 * t.c3 + t.c0 * t.c4) / det
      c4 := -t.c4 / det
      c5 := t.c1 / det }

/-- The struct extent: geographic centre and ground sampling distance of
the requested view. -/
structure Extent where
  dCentreX : ℚ
  dCentreY : ℚ
  dMetersPerCell : ℚ
  deriving DecidableEq

/-- The struct readInfo filled in by prepare_for_reading. -/
structure ReadInfo where
  nXOff : ℤ
  nYOff : ℤ
  nXSize : ℤ
  nYSize : ℤ
  nDataOffset : ℤ
  nBufXSize : ℤ
  nBufYSize : ℤ
  deriving DecidableEq

/-- Clipping and destination-offset computation of prepare_for_reading
(lines 2342-2391), starting from the fractional source coordinates
(x1, y1) and (x2, y2) of the two mapped view corners.  The C abs call on a
double goes through an int conversion first; the clipped-extra rescale
divides by the rounded original span (a division by zero in C when that
span is zero, junk-valued zero in this model). -/
def computeWindow (dataWidth dataHeight width height : ℤ) (x1 y1 x2 y2 : ℚ) : ReadInfo :=
  let origWidthIn := cround (x2 - x1)
  let origHeightIn := cround (y2 - y1)
  let leftExtra : ℤ := if x1 < 0 then |ctrunc x1| else 0
  let x1c : ℚ := if x1 < 0 then 0 else x1
  let rightExtra : ℤ := if (width : ℚ) ≤ x2 then ctrunc (x2 - width - 1) else 0
  let x2c : ℚ := if (width : ℚ) ≤ x2 then ((width - 1 : ℤ) : ℚ) else x2
  let topExtra : ℤ := if y1 < 0 then |ctrunc y1| else 0
  let y1c : ℚ := if y1 < 0 then 0 else y1
  let bottomExtra : ℤ := if (height : ℚ) ≤ y2 then ctrunc (y2 - height - 1) else 0
  let y2c : ℚ := if (height : ℚ) ≤ y2 then ((height - 1 : ℤ) : ℚ) else y2
  let leftD := ctrunc (((leftExtra : ℚ) / (origWidthIn : ℚ)) * (dataWidth : ℚ))
  let rightD := ctrunc (((rightExtra : ℚ) / (origWidthIn : ℚ)) * (dataWidth : ℚ))
  let topD := ctrunc (((topExtra : ℚ) / (origHeightIn : ℚ)) * (dataHeight : ℚ))
  let bottomD := ctrunc (((bottomExtra : ℚ) / (origHeightIn : ℚ)) * (dataHeight : ℚ))
  { nXOff := ctrunc x1c
    nYOff := ctrunc y1c
    nXSize := cround (x2c - x1c)
    nYSize := cround (y2c - y1c)
    nDataOffset := leftD + topD * dataWidth
    nBufXSize := dataWidth - leftD - rightD
    nBufYSize := dataHeight - topD - bottomD }

/-- prepare_for_reading (lines 2306-2392).  ww and wh are the display
canvas dimensions; dataWidth and dataHeight the destination buffer
dimensions; dsXSize the full-resolution raster x size; width and height
the chosen level's raster size; gt the dataset geotransform, or none when
the dataset carries none (the CE_None check of line 2325). -/
def prepare_for_reading (ww wh dataWidth dataHeight dsXSize width height : ℤ)
    (gt : Option GeoTransform) (extent : Extent) : Option ReadInfo :=
  let nFactor := cdiv dsXSize width
  let dTLX := extent.dCentreX - ((ww : ℚ) / 2) * extent.dMetersPerCell
  let dBRX := extent.dCentreX + ((ww : ℚ) / 2) * extent.dMetersPerCell
  let dTLY := extent.dCentreY + ((wh : ℚ) / 2) * extent.dMetersPerCell
  let dBRY := extent.dCentreY - ((wh : ℚ) / 2) * extent.dMetersPerCell
  match gt with
  | Option.none => Option.none
  | Option.some t =>
    let ts : GeoTransform :=
      { t with c1 := t.c1 * (nFactor : ℚ), c5 := t.c5 * (nFactor : ℚ) }
    match invGeoTransform ts with
    | Option.none => Option.none
    | Option.some inv =>
        Option.some (computeWindow dataWidth dataHeight width height
          (applyGeoTransform inv dTLX dTLY).1 (applyGeoTransform inv dTLX dTLY).2
          (applyGeoTransform inv dBRX dBRY).1 (applyGeoTransform inv dBRX dBRY).2)

/-- The fixed target display density: source pixels per display cell. -/
def PIX_PER_CELL : ℤ := 30

/-- Loop of gdal_get_best_overview (lines 2095-2106) over the overview
reduction factors: an overview improves on the current best only when its
pixels-per-cell both exceeds PIX_PER_CELL and lies closer to it than the
current best. -/
def bestOverviewLoop (t1 m : ℚ) : List ℤ → ℤ → ℚ → ℤ → ℚ × ℤ
  | [], _, best, idx => (best, idx)
  | f :: rest, count, best, idx =>
      let ppc := m / (t1 * (f : ℚ))
      if (PIX_PER_CELL : ℚ) < ppc ∧ ppc - PIX_PER_CELL < best - PIX_PER_CELL then
        bestOverviewLoop t1 m rest (count + 1) ppc (count + 1)
      else bestOverviewLoop t1 m rest (count + 1) best idx

/-- gdal_get_best_overview (lines 2068-2109): factors are the integer
reduction factors of band 1's overviews (full raster x size divided by the
overview's x size); m is the requested meters-per-cell.  Returns 0 for
full resolution or overview index + 1.  With no overviews, or no
geotransform (line 2086), it returns 0. -/
def gdal_get_best_overview (gt : Option GeoTransform) (factors : List ℤ) (m : ℚ) : ℤ :=
  if factors.isEmpty then 0
  else
    match gt with
    | Option.none => 0
    | Option.some t => (bestOverviewLoop t.c1 m factors 0 (m / t.c1) 0).2

/-- Bytes per output pixel. -/
def IMG_DEPTH : ℤ := 3

/-- The struct image buffer a successful render produces. -/
structure CImage where
  w : ℤ
  h : ℤ
  pixels : List ℤ
  deriving DecidableEq

/-- RAT colour-column scan of gdal_read_singleband (lines 2540-2559).  The
GFU_Blue branch allocates the blue buffer but passes pGreen to the value
read, so the green buffer receives the Blue column values (when the green
buffer exists; otherwise the C code writes through a null pointer, which
the model renders as leaving the green buffer absent) and the blue buffer
keeps the uninitialised contents of its allocation, the mallocGarbage
parameter. -/
def ratColorScan (mallocGarbage : List ℤ) :
    List RatColumn → Option (List ℤ) → Option (List ℤ) → Option (List ℤ) →
    Option (List ℤ) × Option (List ℤ) × Option (List ℤ)
  | [], r, g, b => (r, g, b)
  | c :: rest, r, g, b =>
      match c.usage with
      | .red => ratColorScan mallocGarbage rest (Option.some c.values) g b
      | .green => ratColorScan mallocGarbage rest r (Option.some c.values) b
      | .blue =>
          ratColorScan mallocGarbage rest r (g.map (fun _ => c.values))
            (Option.some mallocGarbage)
      | _ => ratColorScan mallocGarbage rest r g b

/-- Colour-lookup loop of lines 2571-2580: each stretched sample is cast
to int and indexes the three colour arrays; each looked-up int is stored
into a byte.  An out-of-range index is an out-of-bounds read in C; the
model returns 0 there. -/
def colorTablePixels (r g b : List ℤ) (buf : List ℚ) : List ℤ :=
  (buf.map (fun v =>
    [toByte (r.getD (ctrunc v).toNat 0),
     toByte (g.getD (ctrunc v).toNat 0),
     toByte (b.getD (ctrunc v).toNat 0)])).flatten

/-- Greyscale replication loop of lines 2590-2599. -/
def greyscalePixels (buf : List ℚ) : List ℤ :=
  (buf.map (fun v => [toByte (ctrunc v), toByte (ctrunc v), toByte (ctrunc v)])).flatten

/-- Band-interleave of the three stretched buffers (multiband copy loop of
lines 2453-2459 over the three bands). -/
def interleave3 (b0 b1 b2 : List ℚ) : List ℤ :=
  ((b0.zip (b1.zip b2)).map (fun p =>
    [toByte (ctrunc p.1), toByte (ctrunc p.2.1), toByte (ctrunc p.2.2)])).flatten

/-- gdal_read_singleband (lines 2480-2625).  rasterRead models the GDAL
raster window read of the chosen level: it yields the contents of the
float scratch buffer after the read into the zero-initialised allocation.
none models the -1 error return (missing statistics, missing RAT, missing
colour columns, unsupported mode). -/
def gdal_read_singleband (ww wh dsXSize width height : ℤ) (gt : Option GeoTransform)
    (extent : Extent) (band : BandMeta) (stretch : Stretch)
    (rasterRead : ReadInfo → List ℚ) (mallocGarbage : List ℤ) (histGarbage : ℤ) :
    Option CImage :=
  match prepare_for_reading ww wh (PIX_PER_CELL * ww) (PIX_PER_CELL * wh)
      dsXSize width height gt extent with
  | Option.none => Option.none
  | Option.some info =>
    match do_stretch band stretch histGarbage (rasterRead info) with
    | Option.none => Option.none
    | Option.some sBuf =>
      match stretch.mode with
      | .colortable =>
        match band.rat with
        | Option.none => Option.none
        | Option.some cols =>
          match ratColorScan mallocGarbage cols Option.none Option.none Option.none with
          | (Option.some r, Option.some g, Option.some b) =>
              Option.some
                { w := PIX_PER_CELL * ww, h := PIX_PER_CELL * wh,
                  pixels := colorTablePixels r g b sBuf }
          | _ => Option.none
      | .greyscale =>
          Option.some
            { w := PIX_PER_CELL * ww, h := PIX_PER_CELL * wh,
              pixels := greyscalePixels sBuf }
      | _ => Option.none

/-- gdal_read_multiband (lines 2394-2478).  rasterRead takes the band
position (0, 1, 2) and the window; each band's buffer is stretched against
that band's metadata and the three results are interleaved. -/
def gdal_read_multiband (ww wh dsXSize width height : ℤ) (gt : Option GeoTransform)
    (extent : Extent) (band0 band1 band2 : BandMeta) (stretch : Stretch)
    (rasterRead : ℕ → ReadInfo → List ℚ) (histGarbage : ℤ) : Option CImage :=
  match prepare_for_reading ww wh (PIX_PER_CELL * ww) (PIX_PER_CELL * wh)
      dsXSize width height gt extent with
  | Option.none => Option.none
  | Option.some info =>
    match do_stretch band0 stretch histGarbage (rasterRead 0 info),
          do_stretch band1 stretch histGarbage (rasterRead 1 info),
          do_stretch band2 stretch histGarbage (rasterRead 2 info) with
    | Option.some s0, Option.some s1, Option.some s2 =>
        Option.some
          { w := PIX_PER_CELL * ww, h := PIX_PER_CELL * wh,
            pixels := interleave3 s0 s1 s2 }
    | _, _, _ => Option.none

/-! Helper lemmas about the C arithmetic operators. -/

theorem tdiv_coe_eq_zero (m n : ℕ) (h : m < n) : Int.tdiv (m : ℤ) (n : ℤ) = 0 := by
  show Int.ofNat (m / n) = 0
  rw [Nat.div_eq_of_lt h]
  rfl

theorem tdiv_negone_eq_zero (n : ℕ) (h : 2 ≤ n) : Int.tdiv (-1) (n : ℤ) = 0 := by
  show -Int.ofNat (1 / n) = 0
  rw [Nat.div_eq_of_lt h]
  rfl

theorem cdiv_small_eq_zero (t nb : ℤ) (h0 : 0 ≤ t) (h1 : t < nb) : cdiv t nb = 0 := by
  rw [cdiv]
  have hnb : (0 : ℤ) ≤ nb := le_trans h0 h1.le
  lift t to ℕ using h0
  lift nb to ℕ using hnb
  exact tdiv_coe_eq_zero _ _ (by exact_mod_cast h1)

theorem cdiv_window_eq_zero (t nb : ℤ) (hm : -1 ≤ t) (h1 : t < nb) (h2 : 2 ≤ nb) :
    cdiv t nb = 0 := by
  rcases eq_or_lt_of_le hm with h | h
  · rw [cdiv, ← h]
    lift nb to ℕ using (by omega : (0:ℤ) ≤ nb)
    exact tdiv_negone_eq_zero _ (by exact_mod_cast h2)
  · exact cdiv_small_eq_zero t nb (by omega) h1

theorem ctrunc_zero : ctrunc 0 = 0 := by norm_num [ctrunc]

theorem cround_le_intCast (q : ℚ) (n : ℤ) (hn : 0 ≤ n) (h : q < (n : ℚ)) : cround q ≤ n := by
  rw [cround]
  by_cases h0 : 0 ≤ q
  · rw [if_pos h0]
    have h1 : (⌊q + 1/2⌋ : ℚ) ≤ q + 1/2 := Int.floor_le _
    have h2 : (⌊q + 1/2⌋ : ℚ) < (n : ℚ) + 1 := by linarith
    exact Int.lt_add_one_iff.mp (by exact_mod_cast h2)
  · rw [if_neg h0]
    have h1 : 0 ≤ ⌊-q + 1/2⌋ := Int.floor_nonneg.mpr (by push_neg at h0; linarith)
    omega

theorem cround_nonpos (q : ℚ) (h : q < 0) : cround q ≤ 0 := by
  rw [cround, if_neg (not_le.mpr h)]
  have h1 : 0 ≤ ⌊-q + 1/2⌋ := Int.floor_nonneg.mpr (by linarith)
  omega

/-! Helper lemmas about the histogram bound scans. -/

theorem histLowerScan_eq_min (dMin dMax lower : ℚ) (nbins : ℤ) :
    ∀ (bins : List ℤ) (n : ℤ) (acc : ℚ), 0 ≤ n → n + bins.length ≤ nbins →
      histLowerScan dMin dMax lower nbins bins n acc = dMin := by
  intro bins
  induction bins with
  | nil => intro n acc _ _; rfl
  | cons b rest ih =>
      intro n acc h0 hlen
      rw [histLowerScan]
      by_cases h : lower < acc + (b : ℚ)
      · rw [if_pos h, cdiv_small_eq_zero n nbins h0
          (by simp only [List.length_cons] at hlen; push_cast at hlen; omega)]
        push_cast
        ring
      · rw [if_neg h]
        exact ih (n + 1) _ (by omega)
          (by simp only [List.length_cons] at hlen; push_cast at hlen ⊢; omega)

theorem histUpperScan_eq_max (dMax upper : ℚ) (nbins : ℤ) (h2 : 2 ≤ nbins) :
    ∀ (bins : List ℤ) (n : ℤ) (acc : ℚ), n ≤ nbins → (bins.length : ℤ) ≤ n + 1 →
      histUpperScan dMax upper nbins bins n acc = dMax := by
  intro bins
  induction bins with
  | nil => intro n acc _ _; rfl
  | cons b rest ih =>
      intro n acc hn hlen
      rw [histUpperScan]
      by_cases h : upper < acc + (b : ℚ)
      · rw [if_pos h, cdiv_window_eq_zero (nbins - n - 1) nbins (by omega)
          (by simp only [List.length_cons] at hlen; push_cast at hlen; omega) h2]
        push_cast
        ring
      · rw [if_neg h]
        exact ih (n - 1) _ (by omega)
          (by simp only [List.length_cons] at hlen; push_cast at hlen ⊢; omega)

theorem histStretchBounds_fst (dMin dMax : ℚ) (histo : List ℤ) (g : ℤ) (p0 p1 : ℚ) :
    (histStretchBounds dMin dMax histo g p0 p1).1 = dMin := by
  simp only [histStretchBounds]
  exact histLowerScan_eq_min _ _ _ _ histo 0 0 le_rfl (by omega)

theorem histStretchBounds_snd (dMin dMax : ℚ) (histo : List ℤ) (g : ℤ) (p0 p1 : ℚ)
    (h : 2 ≤ histo.length) :
    (histStretchBounds dMin dMax histo g p0 p1).2 = dMax := by
  simp only [histStretchBounds]
  exact histUpperScan_eq_max _ _ _ (by exact_mod_cast h) _ ((histo.length : ℤ)) 0 le_rfl
    (by simp)

/-! Helper lemma for the stretch-rule matcher. -/

theorem ruleMatch_eq_amended (ds : Dataset) (r : Stretch) :
    ruleMatchCode ds r = amendedFullMatch ds r := by
  simp only [ruleMatchCode, amendedFullMatch, bandIsThematic, bandHasRGBA]
  cases hm : compMatches r.comp (rasterCount ds) r.value
  · simp
  · simp only [Bool.true_and]
    cases hc1 : (r.ctband != -1)
    · simp
    · cases hc2 : decide (r.ctband ≤ rasterCount ds)
      · simp
      · simp only [Bool.true_and, Bool.and_true, if_pos]
        cases hb : getBand ds r.ctband
        · simp
        · rename_i b
          simp only [Option.some_bind]
          by_cases hl : b.layerType = Option.some "thematic"
          · rw [if_pos hl]
            cases hr : b.rat <;> simp [hl, hr]
          · rw [if_neg hl]
            simp [hl]

/-! Helper lemma for the overview selector loop. -/

theorem bestOverviewLoop_spec (t1 m : ℚ) :
    ∀ (fs : List ℤ) (c : ℤ) (best : ℚ) (idx : ℤ),
      (bestOverviewLoop t1 m fs c best idx).1 ≤ best ∧
      (∀ f ∈ fs, (PIX_PER_CELL : ℚ) < m / (t1 * (f : ℚ)) →
        (bestOverviewLoop t1 m fs c best idx).1 ≤ m / (t1 * (f : ℚ))) ∧
      (bestOverviewLoop t1 m fs c best idx = (best, idx) ∨
        ∃ (k : ℕ) (f : ℤ), fs.get? k = Option.some f ∧
          (bestOverviewLoop t1 m fs c best idx).2 = c + 1 + k ∧
          (bestOverviewLoop t1 m fs c best idx).1 = m / (t1 * (f : ℚ)) ∧
          (PIX_PER_CELL : ℚ) < m / (t1 * (f : ℚ))) := by
  intro fs
  induction fs with
  | nil =>
      intro c best idx
      exact ⟨le_rfl, by simp, Or.inl rfl⟩
  | cons f rest ih =>
      intro c best idx
      rw [bestOverviewLoop]
      by_cases h : (PIX_PER_CELL : ℚ) < m / (t1 * (f : ℚ)) ∧
          m / (t1 * (f : ℚ)) - PIX_PER_CELL < best - PIX_PER_CELL
      · rw [if_pos h]
        obtain ⟨ih1, ih2, ih3⟩ := ih (c + 1) (m / (t1 * (f : ℚ))) (c + 1)
        have hlt : m / (t1 * (f : ℚ)) < best := by linarith [h.2]
        refine ⟨le_trans ih1 hlt.le, ?_, ?_⟩
        · intro g hg hgp
          rcases List.mem_cons.mp hg with hg | hg
          · subst hg
            exact ih1
          · exact ih2 g hg hgp
        · rcases ih3 with h3 | ⟨k, f2, hget, hidx, hbest, hppc⟩
          · refine Or.inr ⟨0, f, rfl, ?_, ?_, h.1⟩
            · rw [h3]
              simp
            · rw [h3]
          · refine Or.inr ⟨k + 1, f2, by simpa using hget, ?_, hbest, hppc⟩
            rw [hidx]
            push_cast
            ring
      · rw [if_neg h]
        obtain ⟨ih1, ih2, ih3⟩ := ih (c + 1) best idx
        refine ⟨ih1, ?_, ?_⟩
        · intro g hg hgp
          rcases List.mem_cons.mp hg with hg | hg
          · subst hg
            have hge : best ≤ m / (t1 * (g : ℚ)) := by
              by_contra hcon
              exact h ⟨hgp, by linarith [not_le.mp hcon]⟩
            exact le_trans ih1 hge
          · exact ih2 g hg hgp
        · rcases ih3 with h3 | ⟨k, f2, hget, hidx, hbest, hppc⟩
          · exact Or.inl h3
          · refine Or.inr ⟨k + 1, f2, by simpa using hget, ?_, hbest, hppc⟩
            rw [hidx]
            push_cast
            ring

/-! Helper lemmas for the window mapper. -/

theorem clip_span_le (w : ℤ) (a b : ℚ) (hw : 1 ≤ w) :
    cround ((if (w : ℚ) ≤ b then ((w - 1 : ℤ) : ℚ) else b) - (if a < 0 then 0 else a)) ≤ w := by
  have hb : (if (w : ℚ) ≤ b then ((w - 1 : ℤ) : ℚ) else b) < (w : ℚ) := by
    split
    · push_cast
      linarith
    · exact lt_of_not_le (by assumption)
  have ha : (0 : ℚ) ≤ (if a < 0 then 0 else a) := by
    split
    · exact le_rfl
    · exact not_lt.mp (by assumption)
  exact cround_le_intCast _ w (by omega) (by linarith)

theorem clip_span_nonpos_low (w : ℤ) (a b : ℚ) (hw : 1 ≤ w) (hb : b < 0) :
    cround ((if (w : ℚ) ≤ b then ((w - 1 : ℤ) : ℚ) else b) - (if a < 0 then 0 else a)) ≤ 0 := by
  have hwq : (0 : ℚ) < (w : ℚ) := by exact_mod_cast (by omega : (0 : ℤ) < w)
  rw [if_neg (not_le.mpr (lt_trans hb hwq))]
  have ha : (0 : ℚ) ≤ (if a < 0 then 0 else a) := by
    split
    · exact le_rfl
    · exact not_lt.mp (by assumption)
  exact cround_nonpos _ (by linarith)

theorem clip_span_nonpos_high (w : ℤ) (a b : ℚ) (hw : 1 ≤ w) (ha : (w : ℚ) ≤ a) :
    cround ((if (w : ℚ) ≤ b then ((w - 1 : ℤ) : ℚ) else b) - (if a < 0 then 0 else a)) ≤ 0 := by
  have hwq : (0 : ℚ) < (w : ℚ) := by exact_mod_cast (by omega : (0 : ℤ) < w)
  have hb : (if (w : ℚ) ≤ b then ((w - 1 : ℤ) : ℚ) else b) < (w : ℚ) := by
    split
    · push_cast
      linarith
    · exact lt_of_not_le (by assumption)
  rw [if_neg (not_lt.mpr (le_trans hwq.le ha))]
  exact cround_nonpos _ (by linarith)

theorem computeWindow_nXSize (dataWidth dataHeight width height : ℤ) (x1 y1 x2 y2 : ℚ) :
    (computeWindow dataWidth dataHeight width height x1 y1 x2 y2).nXSize =
      cround ((if (width : ℚ) ≤ x2 then ((width - 1 : ℤ) : ℚ) else x2) -
        (if x1 < 0 then 0 else x1)) := rfl

theorem computeWindow_nYSize (dataWidth dataHeight width height : ℤ) (x1 y1 x2 y2 : ℚ) :
    (computeWindow dataWidth dataHeight width height x1 y1 x2 y2).nYSize =
      cround ((if (height : ℚ) ≤ y2 then ((height - 1 : ℤ) : ℚ) else y2) -
        (if y1 < 0 then 0 else y1)) := rfl

/-! The claims. -/

/-- C1, counterexample.  A one-band dataset whose band is continuous (not
thematic) and has no RAT, against the single rule equal,1,1:colortable:
the count comparator holds, a color-table band is specified, the band is
not thematic, so per the claim the rule must be a non-match and the
matcher must return none; the code nevertheless returns the rule, because
the thematic test only gates the RGBA check instead of being required. -/
theorem C1_counterexample :
    get_stretch_for_gdal
        [⟨ViewerComp.eq, 1, 1, ViewerMode.colortable, ViewerStretchMode.nostretch, (0, 0), (1, 0, 0)⟩]
        ⟨[⟨Option.some "continuous", Option.none⟩]⟩ =
      Option.some
        ⟨ViewerComp.eq, 1, 1, ViewerMode.colortable, ViewerStretchMode.nostretch, (0, 0), (1, 0, 0)⟩ ∧
    specFullMatch ⟨[⟨Option.some "continuous", Option.none⟩]⟩
        ⟨ViewerComp.eq, 1, 1, ViewerMode.colortable, ViewerStretchMode.nostretch, (0, 0), (1, 0, 0)⟩ =
      false := by
  constructor
  · norm_num [get_stretch_for_gdal, ruleMatchCode, compMatches, rasterCount, getBand]
    exact fun h => absurd h (by decide)
  · norm_num [specFullMatch, bandIsThematic, bandHasRGBA, compMatches, rasterCount, getBand]

/-- C1 (amended): the matcher returns the first rule in order satisfying
the amended full match - the count comparator holds, and whenever the
color-table band is specified, lies within the band count AND is confirmed
thematic, its RAT additionally exposes all four of the Red, Green, Blue
and Alpha usage columns; a non-thematic or out-of-range color-table band
leaves the count-comparator match standing.  Returns none when no rule
matches.  The hypothesis restricts to well-formed rules (ctband is -1 or a
valid 1-based band number), since a zero or negative band number is an
undefined GDAL call in the C code. -/
theorem C1_matcher_first_full_match (rules : List Stretch) (ds : Dataset)
    (hwf : ∀ r ∈ rules, r.ctband = -1 ∨ 1 ≤ r.ctband) :
    get_stretch_for_gdal rules ds = rules.find? (amendedFullMatch ds) := by
  induction rules with
  | nil => rfl
  | cons r rest ih =>
      rw [get_stretch_for_gdal, List.find?_cons, ← ruleMatch_eq_amended ds r]
      cases h : ruleMatchCode ds r
      · simp only [Bool.false_eq_true, if_false]
        exact ih (fun r2 hr2 => hwf r2 (List.mem_cons_of_mem r hr2))
      · simp

/-- C1, witness: the matcher theorem applied to the single greyscale rule
equal,1,-1 on a one-band continuous dataset. -/
theorem C1_matcher_first_full_match_witness :
    get_stretch_for_gdal
        [⟨ViewerComp.eq, 1, -1, ViewerMode.greyscale, ViewerStretchMode.nostretch, (0, 0), (1, 0, 0)⟩]
        ⟨[⟨Option.some "continuous", Option.none⟩]⟩ =
      List.find?
        (amendedFullMatch ⟨[⟨Option.some "continuous", Option.none⟩]⟩)
        [⟨ViewerComp.eq, 1, -1, ViewerMode.greyscale, ViewerStretchMode.nostretch, (0, 0), (1, 0, 0)⟩] :=
  C1_matcher_first_full_match _ _ (by intro r hr; simp at hr; subst hr; exact Or.inl rfl)

/-- C2: evaluation of the linear stretch at min 0, max 51, sample 34.  The
code yields 34 * ((51-0)/255) = 34/5 = 6.8, because it multiplies by
dStep = (max-min)/255; the claimed formula (value-min) * 255/(max-min)
yields 170. -/
theorem C2_linear_formula_bug :
    linearScaleVal 0 51 34 = 34 / 5 ∧
    ((34 : ℚ) - 0) * (255 / (51 - 0)) = 170 ∧
    (34 / 5 : ℚ) ≠ 170 := by
  norm_num [linearScaleVal]

/-- C3, counterexample.  A 10 x 10 cell view of a 100 x 100 raster with
unit pixels, centred at x = 500: the view lies entirely to the right of
the raster, and the window mapper returns sourceWidth = -396, which is
negative rather than the claimed 0 (and the claimed invariant that
sourceWidth is never negative fails). -/
theorem C3_counterexample :
    Option.map ReadInfo.nXSize
        (prepare_for_reading 10 10 300 300 100 100 100
          (Option.some ⟨0, 1, 0, 0, 0, -1⟩) ⟨500, -50, 1⟩) =
      Option.some (-396) ∧
    (-396 : ℤ) < 0 := by
  constructor
  · norm_num [prepare_for_reading, computeWindow, invGeoTransform, applyGeoTransform,
      cdiv, ctrunc, cround]
  · norm_num

/-- C3 (amended): for every mapped view window, sourceWidth and
sourceHeight never exceed the chosen level's raster dimensions, and for a
view lying entirely outside the raster on an axis (its mapped span ends
before pixel 0 or starts at or beyond the raster edge) the corresponding
source size is at most 0 - but it can be negative, not necessarily 0. -/
theorem C3_window_clip_amended (dataWidth dataHeight width height : ℤ) (x1 y1 x2 y2 : ℚ)
    (hw : 1 ≤ width) (hh : 1 ≤ height) :
    ((computeWindow dataWidth dataHeight width height x1 y1 x2 y2).nXSize ≤ width ∧
     (computeWindow dataWidth dataHeight width height x1 y1 x2 y2).nYSize ≤ height) ∧
    ((x2 < 0 ∨ (width : ℚ) ≤ x1) →
      (computeWindow dataWidth dataHeight width height x1 y1 x2 y2).nXSize ≤ 0) ∧
    ((y2 < 0 ∨ (height : ℚ) ≤ y1) →
      (computeWindow dataWidth dataHeight width height x1 y1 x2 y2).nYSize ≤ 0) := by
  rw [computeWindow_nXSize, computeWindow_nYSize]
  refine ⟨⟨clip_span_le width x1 x2 hw, clip_span_le height y1 y2 hh⟩, ?_, ?_⟩
  · rintro (h | h)
    · exact clip_span_nonpos_low width x1 x2 hw h
    · exact clip_span_nonpos_high width x1 x2 hw h
  · rintro (h | h)
    · exact clip_span_nonpos_low height y1 y2 hh h
    · exact clip_span_nonpos_high height y1 y2 hh h

/-- C3, witness: the amended window bound theorem applied to the
counterexample's mapped corners (495, 45) - (505, 55) over a 100 x 100
level. -/
theorem C3_window_clip_amended_witness :
    (((computeWindow 300 300 100 100 495 45 505 55).nXSize ≤ 100 ∧
      (computeWindow 300 300 100 100 495 45 505 55).nYSize ≤ 100) ∧
     (((505 : ℚ) < 0 ∨ (100 : ℚ) ≤ 495) →
       (computeWindow 300 300 100 100 495 45 505 55).nXSize ≤ 0) ∧
     (((55 : ℚ) < 0 ∨ (100 : ℚ) ≤ 45) →
       (computeWindow 300 300 100 100 495 45 505 55).nYSize ≤ 0)) :=
  C3_window_clip_amended 300 300 100 100 495 45 505 55 (by norm_num) (by norm_num)

/-- C4: with positive meters-per-cell and native pixel size and genuine
(at least halving) overview factors, the overview selector (a) returns
either full resolution or an overview whose pixels-per-cell strictly
exceeds the target density PIX_PER_CELL and is the smallest such (closest
to the target from above) among all overviews exceeding it; (b) returns
level 0 when no overview exceeds the target; and (c) never falls back to
level 0 while an overview exceeding the target exists. -/
theorem C4_best_overview (t : GeoTransform) (factors : List ℤ) (m : ℚ)
    (hm : 0 < m) (ht : 0 < t.c1) (hf : ∀ f ∈ factors, (2 : ℤ) ≤ f) :
    (gdal_get_best_overview (Option.some t) factors m = 0 ∨
      ∃ (k : ℕ) (f : ℤ), factors.get? k = Option.some f ∧
        gdal_get_best_overview (Option.some t) factors m = (k : ℤ) + 1 ∧
        (PIX_PER_CELL : ℚ) < m / (t.c1 * (f : ℚ)) ∧
        (∀ g ∈ factors, (PIX_PER_CELL : ℚ) < m / (t.c1 * (g : ℚ)) →
          m / (t.c1 * (f : ℚ)) ≤ m / (t.c1 * (g : ℚ)))) ∧
    ((∀ f ∈ factors, m / (t.c1 * (f : ℚ)) ≤ (PIX_PER_CELL : ℚ)) →
      gdal_get_best_overview (Option.some t) factors m = 0) ∧
    ((∃ f ∈ factors, (PIX_PER_CELL : ℚ) < m / (t.c1 * (f : ℚ))) →
      gdal_get_best_overview (Option.some t) factors m ≠ 0) := by
  have key : ∀ g ∈ factors, m / (t.c1 * (g : ℚ)) < m / t.c1 := by
    intro g hg
    have h2 : (2 : ℤ) ≤ g := hf g hg
    have hgq : (1 : ℚ) < (g : ℚ) := by exact_mod_cast (by omega : (1 : ℤ) < g)
    have hcc : t.c1 < t.c1 * (g : ℚ) := by nlinarith
    exact div_lt_div_of_pos_left hm ht hcc
  rcases factors with _ | ⟨f0, rest⟩
  · refine ⟨Or.inl rfl, fun _ => rfl, ?_⟩
    rintro ⟨f, hf2, _⟩
    simp at hf2
  · have hr : gdal_get_best_overview (Option.some t) (f0 :: rest) m =
        (bestOverviewLoop t.c1 m (f0 :: rest) 0 (m / t.c1) 0).2 := rfl
    obtain ⟨s1, s2, s3⟩ := bestOverviewLoop_spec t.c1 m (f0 :: rest) 0 (m / t.c1) 0
    refine ⟨?_, ?_, ?_⟩
    · rcases s3 with h3 | ⟨k, f, hget, hidx, hbest, hppc⟩
      · rw [hr, h3]
        exact Or.inl rfl
      · refine Or.inr ⟨k, f, hget, ?_, hppc, ?_⟩
        · rw [hr, hidx]; ring
        · intro g hg hgp
          rw [← hbest]
          exact s2 g hg hgp
    · intro hall
      rcases s3 with h3 | ⟨k, f, hget, hidx, hbest, hppc⟩
      · rw [hr, h3]
      · exact absurd hppc (not_lt.mpr (hall f (List.get?_mem hget)))
    · rintro ⟨f, hfm, hfp⟩
      have hb1 : (bestOverviewLoop t.c1 m (f0 :: rest) 0 (m / t.c1) 0).1 ≤
          m / (t.c1 * (f : ℚ)) := s2 f hfm hfp
      have hb2 : (bestOverviewLoop t.c1 m (f0 :: rest) 0 (m / t.c1) 0).1 < m / t.c1 :=
        lt_of_le_of_lt hb1 (key f hfm)
      rcases s3 with h3 | ⟨k, f2, hget, hidx, hbest, hppc⟩
      · rw [h3] at hb2
        exact absurd hb2 (lt_irrefl _)
      · rw [hr, hidx]
        omega

/-- C4, witness: unit native pixel size, overviews with factors 2 and 4,
124 meters per cell: the pixels-per-cell values are 62 and 31, both above
the target 30, and the selector picks the second overview (level 2). -/
theorem C4_best_overview_witness :
    (0 : ℚ) < 124 ∧
    ((gdal_get_best_overview (Option.some ⟨0, 1, 0, 0, 0, -1⟩) [2, 4] 124 = 0 ∨
      ∃ (k : ℕ) (f : ℤ), [(2 : ℤ), 4].get? k = Option.some f ∧
        gdal_get_best_overview (Option.some ⟨0, 1, 0, 0, 0, -1⟩) [2, 4] 124 = (k : ℤ) + 1 ∧
        (PIX_PER_CELL : ℚ) < 124 / (1 * (f : ℚ)) ∧
        (∀ g ∈ [(2 : ℤ), 4], (PIX_PER_CELL : ℚ) < 124 / (1 * (g : ℚ)) →
          124 / (1 * (f : ℚ)) ≤ 124 / (1 * (g : ℚ)))) ∧
     ((∀ f ∈ [(2 : ℤ), 4], 124 / (1 * (f : ℚ)) ≤ (PIX_PER_CELL : ℚ)) →
       gdal_get_best_overview (Option.some ⟨0, 1, 0, 0, 0, -1⟩) [2, 4] 124 = 0) ∧
     ((∃ f ∈ [(2 : ℤ), 4], (PIX_PER_CELL : ℚ) < 124 / (1 * (f : ℚ))) →
       gdal_get_best_overview (Option.some ⟨0, 1, 0, 0, 0, -1⟩) [2, 4] 124 ≠ 0)) :=
  ⟨by norm_num,
   C4_best_overview ⟨0, 1, 0, 0, 0, -1⟩ [2, 4] 124 (by norm_num) (by norm_num)
     (by intro f hf; fin_cases hf <;> norm_num)⟩

/-- C5: evaluation of the color-table composition at a RAT with columns
Red = [10], Green = [20], Blue = [30] and one pixel of value 0, with
uninitialised-malloc contents modelled as [77].  The code writes the pixel
(10, 30, 77): the red channel gets the Red entry, but the green channel
gets the Blue entry (the GFU_Blue branch reads the Blue column into the
green buffer) and the blue channel gets the uninitialised allocation;
the claim says the pixel must be (10, 20, 30). -/
theorem C5_colortable_blue_bug :
    gdal_read_singleband 1 1 100 100 100 (Option.some ⟨0, 1, 0, 0, 0, -1⟩) ⟨50, -50, 1⟩
        ⟨Option.some 0, Option.some 255, Option.none, Option.none,
          Option.some [⟨RatUsage.red, [10]⟩, ⟨RatUsage.green, [20]⟩, ⟨RatUsage.blue, [30]⟩]⟩
        ⟨ViewerComp.eq, 1, 1, ViewerMode.colortable, ViewerStretchMode.nostretch, (0, 0), (1, 0, 0)⟩
        (fun _ => [0]) [77] 0 =
      Option.some ⟨30, 30, [10, 30, 77]⟩ ∧
    ([10, 30, 77] : List ℤ) ≠ [10, 20, 30] := by
  constructor
  · norm_num [gdal_read_singleband, prepare_for_reading, computeWindow, invGeoTransform,
      applyGeoTransform, cdiv, ctrunc, cround, do_stretch, ratColorScan, colorTablePixels,
      toByte, PIX_PER_CELL]
  · decide

/-- C6, counterexample.  A single-bin histogram [1] with min = max = 5 and
stretch parameters [0, 1]: the top-down scan starts at the out-of-bounds
word past the histogram (here 100), which exceeds the upper clip count
total * 1 = 1, so the scan breaks at position nbins and computes
stretchMax = max + (-1 / 1) = 4, giving bounds (5, 4): stretchMin exceeds
stretchMax and stretchMax differs from the band maximum, both against the
claim. -/
theorem C6_counterexample :
    histStretchBounds 5 5 [1] 100 0 1 = (5, 4) ∧
    ¬ ((5 : ℚ) ≤ 4) ∧ ((4 : ℚ) ≠ 5) := by
  refine ⟨?_, by norm_num, by norm_num⟩
  norm_num [histStretchBounds, histLowerScan, histUpperScan, cdiv]

/-- C6 (amended): for a histogram with at least two bins (so that the
out-of-bounds word read at the top of the scan cannot shift the derived
bound), the derived bounds satisfy stretchMin at most stretchMax whenever
min is at most max, and for stretch parameters [0, 1] they equal the band
statistics exactly.  (In fact the integer divisions n / nbins collapse
every break position to 0, so the bounds always equal the statistics.) -/
theorem C6_hist_bounds_amended (dMin dMax : ℚ) (histo : List ℤ) (g : ℤ) (p0 p1 : ℚ)
    (hmm : dMin ≤ dMax) (hlen : 2 ≤ histo.length) :
    (histStretchBounds dMin dMax histo g p0 p1).1 ≤
      (histStretchBounds dMin dMax histo g p0 p1).2 ∧
    (p0 = 0 ∧ p1 = 1 →
      (histStretchBounds dMin dMax histo g p0 p1).1 = dMin ∧
      (histStretchBounds dMin dMax histo g p0 p1).2 = dMax) := by
  rw [histStretchBounds_fst, histStretchBounds_snd _ _ _ _ _ _ hlen]
  exact ⟨hmm, fun _ => ⟨rfl, rfl⟩⟩

/-- C6, witness: the amended bounds theorem applied to the histogram
[3, 4] with min 0, max 10, out-of-bounds word 9 and parameters [0, 1]. -/
theorem C6_hist_bounds_amended_witness :
    (0 : ℚ) ≤ 10 ∧ 2 ≤ [(3 : ℤ), 4].length ∧
    ((histStretchBounds 0 10 [3, 4] 9 0 1).1 ≤ (histStretchBounds 0 10 [3, 4] 9 0 1).2 ∧
     ((0 : ℚ) = 0 ∧ (1 : ℚ) = 1 →
       (histStretchBounds 0 10 [3, 4] 9 0 1).1 = 0 ∧
       (histStretchBounds 0 10 [3, 4] 9 0 1).2 = 10)) :=
  ⟨by norm_num, by norm_num, C6_hist_bounds_amended 0 10 [3, 4] 9 0 1 (by norm_num) (by norm_num)⟩

/-- C7: the standard-deviation stretch maps a raw sample of exactly 0 to
0, whatever the band minimum, maximum, mean, standard deviation and
stretch parameter are - the zero test short-circuits before any
comparison with the statistics. -/
theorem C7_stddev_zero_to_zero (dMin dMax mean stddev param : ℚ) :
    stddevStretchVal dMin dMax mean stddev param 0 = 0 := by
  rw [stddevStretchVal, if_pos (Or.inr rfl)]

/-- C8: when both mapped view corners land inside the chosen level's
raster bounds on both axes, no clipping margin arises: the usable
destination width and height equal the full destination buffer dimensions
and the destination offset is 0.  The two rounded-span hypotheses express
that the original mapped spans are nonzero, which the C code needs to
avoid a 0/0 division in the margin rescale. -/
theorem C8_inside_window (dataWidth dataHeight width height : ℤ) (x1 y1 x2 y2 : ℚ)
    (hx1 : 0 ≤ x1) (hx1w : x1 < (width : ℚ)) (hx2 : 0 ≤ x2) (hx2w : x2 < (width : ℚ))
    (hy1 : 0 ≤ y1) (hy1h : y1 < (height : ℚ)) (hy2 : 0 ≤ y2) (hy2h : y2 < (height : ℚ))
    (how : cround (x2 - x1) ≠ 0) (hoh : cround (y2 - y1) ≠ 0) :
    (computeWindow dataWidth dataHeight width height x1 y1 x2 y2).nBufXSize = dataWidth ∧
    (computeWindow dataWidth dataHeight width height x1 y1 x2 y2).nBufYSize = dataHeight ∧
    (computeWindow dataWidth dataHeight width height x1 y1 x2 y2).nDataOffset = 0 := by
  have hxc : ¬ x1 < 0 := not_lt.mpr hx1
  have hx2c : ¬ (width : ℚ) ≤ x2 := not_le.mpr hx2w
  have hyc : ¬ y1 < 0 := not_lt.mpr hy1
  have hy2c : ¬ (height : ℚ) ≤ y2 := not_le.mpr hy2h
  simp only [computeWindow, if_neg hxc, if_neg hx2c, if_neg hyc, if_neg hy2c]
  norm_num [ctrunc]

/-- C8, witness: the corners (49.5, 49.5) - (50.5, 50.5) inside a
100 x 100 level with a 300 x 300 destination buffer. -/
theorem C8_inside_window_witness :
    (computeWindow 300 300 100 100 (99/2) (99/2) (101/2) (101/2)).nBufXSize = 300 ∧
    (computeWindow 300 300 100 100 (99/2) (99/2) (101/2) (101/2)).nBufYSize = 300 ∧
    (computeWindow 300 300 100 100 (99/2) (99/2) (101/2) (101/2)).nDataOffset = 0 :=
  C8_inside_window 300 300 100 100 (99/2) (99/2) (101/2) (101/2)
    (by norm_num) (by norm_num) (by norm_num) (by norm_num)
    (by norm_num) (by norm_num) (by norm_num) (by norm_num)
    (by norm_num [cround]) (by norm_num [cround])

/-- C9, counterexample.  A dataset with one overview (factor 2) and no
geotransform: the overview selector returns 0 - the same full-resolution
level a dataset with a geotransform and an unsuitable overview gets - with
no error channel at all in its int return, instead of failing and
reporting the condition. -/
theorem C9_counterexample :
    gdal_get_best_overview Option.none [2] 5 = 0 ∧
    gdal_get_best_overview (Option.some ⟨0, 1, 0, 0, 0, -1⟩) [2] 5 = 0 := by
  constructor
  · rfl
  · norm_num [gdal_get_best_overview, bestOverviewLoop, PIX_PER_CELL]

/-- C9 (amended): when the dataset carries no geotransform the overview
selector silently returns level 0 (full resolution) for every overview
list and every requested meters-per-cell; the missing-geotransform
condition is reported to the caller not by the selector but by the window
mapper, which fails on the same condition. -/
theorem C9_silent_fallback :
    (∀ (factors : List ℤ) (m : ℚ), gdal_get_best_overview Option.none factors m = 0) ∧
    (∀ (ww wh dataWidth dataHeight dsXSize width height : ℤ) (extent : Extent),
      prepare_for_reading ww wh dataWidth dataHeight dsXSize width height
        Option.none extent = Option.none) := by
  constructor
  · intro factors m
    cases factors <;> rfl
  · intro ww wh dataWidth dataHeight dsXSize width height extent
    rfl

/-- C10: every image buffer a successful render produces - single-band
(color table or greyscale) or multiband - has width PIX_PER_CELL times
the display canvas width and height PIX_PER_CELL times the display canvas
height, for every dataset geometry, overview level, stretch and read
content. -/
theorem C10_buffer_dims (ww wh dsXSize width height : ℤ) (gt : Option GeoTransform)
    (extent : Extent) (band band0 band1 band2 : BandMeta) (stretch : Stretch)
    (rr : ReadInfo → List ℚ) (rr3 : ℕ → ReadInfo → List ℚ)
    (mg : List ℤ) (hg : ℤ) (im : CImage) :
    (gdal_read_singleband ww wh dsXSize width height gt extent band stretch rr mg hg =
        Option.some im → im.w = PIX_PER_CELL * ww ∧ im.h = PIX_PER_CELL * wh) ∧
    (gdal_read_multiband ww wh dsXSize width height gt extent band0 band1 band2 stretch rr3 hg =
        Option.some im → im.w = PIX_PER_CELL * ww ∧ im.h = PIX_PER_CELL * wh) := by
  constructor
  · intro h
    unfold gdal_read_singleband at h
    repeat' split at h
    all_goals simp_all
    all_goals (rw [← h]; exact ⟨rfl, rfl⟩)
  · intro h
    unfold gdal_read_multiband at h
    repeat' split at h
    all_goals simp_all
    all_goals (rw [← h]; exact ⟨rfl, rfl⟩)

/-- C10, witness: a successful greyscale single-band render and a
successful RGB multiband render on a 1 x 1 cell canvas, both yielding a
30 x 30 buffer. -/
theorem C10_buffer_dims_witness :
    gdal_read_singleband 1 1 100 100 100 (Option.some ⟨0, 1, 0, 0, 0, -1⟩) ⟨50, -50, 1⟩
        ⟨Option.some 0, Option.some 255, Option.none, Option.none, Option.none⟩
        ⟨ViewerComp.eq, 1, -1, ViewerMode.greyscale, ViewerStretchMode.nostretch, (0, 0), (1, 0, 0)⟩
        (fun _ => []) [] 0 = Option.some ⟨30, 30, []⟩ ∧
    ((⟨30, 30, []⟩ : CImage).w = PIX_PER_CELL * 1 ∧ (⟨30, 30, []⟩ : CImage).h = PIX_PER_CELL * 1) ∧
    gdal_read_multiband 1 1 100 100 100 (Option.some ⟨0, 1, 0, 0, 0, -1⟩) ⟨50, -50, 1⟩
        ⟨Option.some 0, Option.some 255, Option.none, Option.none, Option.none⟩
        ⟨Option.some 0, Option.some 255, Option.none, Option.none, Option.none⟩
        ⟨Option.some 0, Option.some 255, Option.none, Option.none, Option.none⟩
        ⟨ViewerComp.eq, 1, -1, ViewerMode.rgb, ViewerStretchMode.nostretch, (0, 0), (1, 0, 0)⟩
        (fun _ _ => []) 0 = Option.some ⟨30, 30, []⟩ ∧
    ((⟨30, 30, []⟩ : CImage).w = PIX_PER_CELL * 1 ∧ (⟨30, 30, []⟩ : CImage).h = PIX_PER_CELL * 1) :=
  ⟨by norm_num [gdal_read_singleband, prepare_for_reading, computeWindow, invGeoTransform,
      applyGeoTransform, cdiv, ctrunc, cround, do_stretch, greyscalePixels, PIX_PER_CELL],
   (C10_buffer_dims 1 1 100 100 100 (Option.some ⟨0, 1, 0, 0, 0, -1⟩) ⟨50, -50, 1⟩
      ⟨Option.some 0, Option.some 255, Option.none, Option.none, Option.none⟩
      ⟨Option.some 0, Option.some 255, Option.none, Option.none, Option.none⟩
      ⟨Option.some 0, Option.some 255, Option.none, Option.none, Option.none⟩
      ⟨Option.some 0, Option.some 255, Option.none, Option.none, Option.none⟩
      ⟨ViewerComp.eq, 1, -1, ViewerMode.greyscale, ViewerStretchMode.nostretch, (0, 0), (1, 0, 0)⟩
      (fun _ => []) (fun _ _ => []) [] 0 ⟨30, 30, []⟩).1
     (by norm_num [gdal_read_singleband, prepare_for_reading, computeWindow, invGeoTransform,
        applyGeoTransform, cdiv, ctrunc, cround, do_stretch, greyscalePixels, PIX_PER_CELL]),
   by norm_num [gdal_read_multiband, prepare_for_reading, computeWindow, invGeoTransform,
      applyGeoTransform, cdiv, ctrunc, cround, do_stretch, interleave3, PIX_PER_CELL],
   (C10_buffer_dims 1 1 100 100 100 (Option.some ⟨0, 1, 0, 0, 0, -1⟩) ⟨50, -50, 1⟩
      ⟨Option.some 0, Option.some 255, Option.none, Option.none, Option.none⟩
      ⟨Option.some 0, Option.some 255, Option.none, Option.none, Option.none⟩
      ⟨Option.some 0, Option.some 255, Option.none, Option.none, Option.none⟩
      ⟨Option.some 0, Option.some 255, Option.none, Option.none, Option.none⟩
      ⟨ViewerComp.eq, 1, -1, ViewerMode.rgb, ViewerStretchMode.nostretch, (0, 0), (1, 0, 0)⟩
      (fun _ => []) (fun _ _ => []) [] 0 ⟨30, 30, []⟩).2
     (by norm_num [gdal_read_multiband, prepare_for_reading, computeWindow, invGeoTransform,
        applyGeoTransform, cdiv, ctrunc, cround, do_stretch, interleave3, PIX_PER_CELL])⟩
